import Mathlib

/-
Verification of the CSkit-Consumer client-side state model.

The development shallowly embeds the two stateful modules of the
repository:

* `src/app/consumer/page.tsx` — the consumer dashboard: cart state
  (`loadCart`, `addToCart`, `isInCart`), catalog fetching
  (`fetchProducts`) and search filtering (`filteredProducts`);
* `src/app/lib/auth.tsx` — the auth context: `login`, `logout`,
  `isLoggedIn`.

Browser `localStorage` is modelled as a total map from string keys to
optional stored values; `JSON.parse` / `JSON.stringify` round-trips are
modelled at the level of the shapes this program reads and writes
(a product array under the key "cart", a user record under the key
"user", or an unparsable string).  `Date.now()` is passed to `login`
as an explicit clock argument.  `console.error` output is modelled as
an append-only log inside the dashboard state.
-/

namespace CSkit

/-- Product category, the `category` field of the `Product` type in
`src/app/consumer/page.tsx` (one of "material" | "machine" | "worker"). -/
inductive Category
  | material
  | machine
  | worker
deriving DecidableEq

/-- The `Product` record of `src/app/consumer/page.tsx`.  `price` is a JS
number used only opaquely by the verified operations, so it is carried as
an integer. -/
structure Product where
  id : Int
  name : String
  price : Int
  image : String
  description : String
  category : Category
deriving DecidableEq

/-- The single user role of `src/app/lib/auth.tsx` (`type UserRole = "consumer"`). -/
inductive UserRole
  | consumer
deriving DecidableEq

/-- The `User` record of `src/app/lib/auth.tsx`. -/
structure User where
  id : String
  email : String
  username : String
  role : UserRole
deriving DecidableEq

/-- A string stored under one `localStorage` key, abstracted to the shapes
this program reads and writes:

* `malformed` — a nonempty string on which `JSON.parse` throws;
* `cartJson l` — the `JSON.stringify` image of a product array `l`;
* `userJson u` — the `JSON.stringify` image of a user record `u`.

Stored strings that parse to some other JSON value (for instance a user
object sitting under the "cart" key) are outside this abstraction; the
one operation that could meet such a value, `loadCart`, returns `none`
for it (see `loadCart`). -/
inductive Item
  | malformed
  | cartJson (l : List Product)
  | userJson (u : User)
deriving DecidableEq

/-- The browser `localStorage`: a total map from key to optionally stored
value. -/
abbrev Storage : Type := String → Option Item

/-- `localStorage.setItem k v`. -/
def setItem (k : String) (v : Item) (σ : Storage) : Storage :=
  fun k2 => if k2 = k then some v else σ k2

/-- `localStorage.removeItem k`. -/
def removeItem (k : String) (σ : Storage) : Storage :=
  fun k2 => if k2 = k then none else σ k2

/-- An empty `localStorage`. -/
def emptyStorage : Storage := fun _ => none

/-- JS `String.prototype.toLowerCase()`: lower-case every character. -/
def jsToLower (s : String) : String := String.mk (s.data.map Char.toLower)

/-- JS `a.includes(b)`: `b` occurs in `a` as a contiguous substring. -/
def jsIncludes (a b : String) : Bool := decide (b.data <:+: a.data)

/-- The state held by the `ConsumerDashboard` component of
`src/app/consumer/page.tsx`: its `useState` hooks (the ones the verified
operations touch), the shared `localStorage`, and the `console.error`
log. -/
structure DashState where
  cartCount : Nat
  searchTerm : String
  allProducts : List Product
  displayedMaterial : List Product
  displayedMachine : List Product
  displayedWorker : List Product
  cart : List Product
  selectedProduct : Option Product
  isLoading : Bool
  storage : Storage
  log : List String

/-- The category bucket of `displayedProducts` selected by a category key. -/
def DashState.displayed (s : DashState) : Category → List Product
  | Category.material => s.displayedMaterial
  | Category.machine => s.displayedMachine
  | Category.worker => s.displayedWorker

/-- The initial dashboard state: the `useState` initial values of
`ConsumerDashboard` (empty cart, zero counter, empty search term, empty
catalog, loading) over a given `localStorage`. -/
def initialDashState (σ : Storage) : DashState :=
  { cartCount := 0
    searchTerm := ""
    allProducts := []
    displayedMaterial := []
    displayedMachine := []
    displayedWorker := []
    cart := []
    selectedProduct := none
    isLoading := true
    storage := σ
    log := [] }

/-- `loadCart` of `src/app/consumer/page.tsx`: read the "cart" key; if
absent do nothing; if it parses to a product array, install it and set the
counter to its length; if `JSON.parse` throws, log and reset cart and
counter.  A stored value that parses to a non-array (the `Item.userJson`
case) would make the JS set the cart to a non-array value, which the
typed state cannot represent; `loadCart` returns `none` exactly there,
and every theorem about `loadCart` works under the `some` outcome. -/
def loadCart (s : DashState) : Option DashState :=
  match s.storage "cart" with
  | none => some s
  | some (Item.cartJson parsedCart) =>
      some { s with cart := parsedCart, cartCount := parsedCart.length }
  | some Item.malformed =>
      some { s with log := s.log ++ ["Error loading cart:"],
                    cart := [], cartCount := 0 }
  | some (Item.userJson _) => none

/-- The outcome of `fetch("/api/products")` followed by
`response.json()`: either a product array, or a transport / parse
failure (the promise rejects before `setAllProducts` runs). -/
inductive FetchResult
  | ok (data : List Product)
  | error
deriving DecidableEq

/-- `fetchProducts` of `src/app/consumer/page.tsx`, applied to the outcome
of the network request.  On success it stores the data and partitions it
into the three category buckets; on failure it logs and changes nothing
else; either way the `finally` block clears `isLoading`. -/
def fetchProducts (r : FetchResult) (s : DashState) : DashState :=
  match r with
  | FetchResult.ok data =>
      { s with
        allProducts := data
        displayedMaterial := data.filter (fun p => p.category == Category.material)
        displayedMachine := data.filter (fun p => p.category == Category.machine)
        displayedWorker := data.filter (fun p => p.category == Category.worker)
        isLoading := false }
  | FetchResult.error =>
      { s with log := s.log ++ ["Error fetching products:"],
               isLoading := false }

/-- `filteredProducts` of `src/app/consumer/page.tsx`: the products of the
selected category bucket whose name contains the search term,
case-insensitively. -/
def filteredProducts (s : DashState) (category : Category) : List Product :=
  (s.displayed category).filter
    (fun product => jsIncludes (jsToLower product.name) (jsToLower s.searchTerm))

/-- `addToCart` of `src/app/consumer/page.tsx`: append the product to the
cart, persist the updated cart under the "cart" key, increment the
counter, close the product dialog. -/
def addToCart (product : Product) (s : DashState) : DashState :=
  let updatedCart := s.cart ++ [product]
  { s with
    cart := updatedCart
    storage := setItem "cart" (Item.cartJson updatedCart) s.storage
    cartCount := s.cartCount + 1
    selectedProduct := none }

/-- `isInCart` of `src/app/consumer/page.tsx`: linear scan of the cart for
an entry with the given identifier. -/
def isInCart (productId : Int) (s : DashState) : Bool :=
  s.cart.any (fun item => item.id == productId)

/-- The state held by the `AuthProvider` of `src/app/lib/auth.tsx`: the
in-memory session, the shared `localStorage`, and the current route
(`router.push` target). -/
structure AuthState where
  user : Option User
  storage : Storage
  route : String

/-- `login` of `src/app/lib/auth.tsx`.  `now` is the value of `Date.now()`
at the call, whose decimal rendering becomes the new user identifier.
The new user replaces any current session, is persisted under the "user"
key, and the router navigates to the dashboard.  No validation is
performed on either input. -/
def login (now : Nat) (email username : String) (s : AuthState) : AuthState :=
  let newUser : User :=
    { id := toString now, email := email, username := username,
      role := UserRole.consumer }
  { s with
    user := some newUser
    storage := setItem "user" (Item.userJson newUser) s.storage
    route := "/consumer" }

/-- `logout` of `src/app/lib/auth.tsx`: clear the session, remove the
persisted "user" record, navigate to the welcome page. -/
def logout (s : AuthState) : AuthState :=
  { s with
    user := none
    storage := removeItem "user" s.storage
    route := "/" }

/-- `isLoggedIn` of `src/app/lib/auth.tsx`: truthiness of
`localStorage.getItem("user")`.  Every representable stored value is a
nonempty string, hence truthy. -/
def isLoggedIn (s : AuthState) : Bool :=
  (s.storage "user").isSome


/-! ## Sample data used by witnesses -/

/-- A sample material product. -/
def cement : Product :=
  { id := 1, name := "Cement Bag", price := 350, image := "/cement.png",
    description := "A bag of cement", category := Category.material }

/-- A sample machine product. -/
def drill : Product :=
  { id := 2, name := "Power Drill", price := 1200, image := "/drill.png",
    description := "A power drill", category := Category.machine }

/-- A dashboard state with a small catalog loaded and an empty search term. -/
def sampleDash : DashState :=
  { initialDashState emptyStorage with
      displayedMaterial := [cement], displayedMachine := [drill],
      isLoading := false }

/-- A dashboard state whose cart holds one product and whose counter is 1. -/
def sampleDashCart : DashState :=
  { initialDashState emptyStorage with cart := [cement], cartCount := 1 }

/-- A storage whose "cart" key holds an unparsable string. -/
def malformedCartStorage : Storage := setItem "cart" Item.malformed emptyStorage

/-- A freshly mounted dashboard over `malformedCartStorage`. -/
def dashWithMalformedCart : DashState := initialDashState malformedCartStorage

/-- The auth state before any session exists. -/
def authInit : AuthState := { user := none, storage := emptyStorage, route := "/" }

/-! ## Helper lemmas -/

/-- Folding `addToCart` over a list of products grows the cart's length by
the number of products added. -/
theorem addToCart_foldl_cart_length (ps : List Product) (s : DashState) :
    (ps.foldl (fun st q => addToCart q st) s).cart.length
      = s.cart.length + ps.length := by
  induction ps generalizing s with
  | nil => simp
  | cons q qs ih =>
      rw [List.foldl_cons, ih]
      simp only [addToCart, List.length_append, List.length_cons,
        List.length_nil]
      omega

/-! ## Claims -/

/-- Claim C1: `addToCart p` appends `p` to the in-memory cart (so folding
it over N products grows a cart of length K to length K + N, duplicates
included), persists the full updated sequence under the "cart" storage
key, and increments the display counter by one. -/
theorem addToCart_spec (s : DashState) (p : Product) (ps : List Product) :
    (addToCart p s).cart = s.cart ++ [p] ∧
    (addToCart p s).storage "cart" = some (Item.cartJson (s.cart ++ [p])) ∧
    (addToCart p s).cartCount = s.cartCount + 1 ∧
    (ps.foldl (fun st q => addToCart q st) s).cart.length
      = s.cart.length + ps.length := by
  refine ⟨rfl, ?_, rfl, addToCart_foldl_cart_length ps s⟩
  simp [addToCart, setItem]

/-- Claim C2: `isInCart productId` returns true iff some entry of the cart
has identifier `productId`. -/
theorem isInCart_iff (s : DashState) (productId : Int) :
    isInCart productId s = true ↔ ∃ item ∈ s.cart, item.id = productId := by
  simp [isInCart, List.any_eq_true]

/-- Claim C3: the filtered list holds exactly the products of the selected
category bucket whose lower-cased name contains the lower-cased search
term as a substring, in bucket order; for the empty search term it equals
the whole bucket. -/
theorem filteredProducts_spec (s : DashState) (c : Category) :
    (∀ p, p ∈ filteredProducts s c ↔
        p ∈ s.displayed c ∧
          (jsToLower s.searchTerm).data <:+: (jsToLower p.name).data) ∧
    List.Sublist (filteredProducts s c) (s.displayed c) ∧
    (s.searchTerm = "" → filteredProducts s c = s.displayed c) := by
  refine ⟨?_, List.filter_sublist _, ?_⟩
  · intro p
    simp [filteredProducts, List.mem_filter, jsIncludes]
  · intro h
    unfold filteredProducts
    rw [h]
    apply List.filter_eq_self.mpr
    intro a _
    simp [jsIncludes, jsToLower]

/-- Witness for C3 at a concrete state with an empty search term. -/
theorem filteredProducts_spec_witness :
    sampleDash.searchTerm = "" ∧
    filteredProducts sampleDash Category.material
      = sampleDash.displayedMaterial :=
  ⟨rfl, (filteredProducts_spec sampleDash Category.material).2.2 rfl⟩

/-- Claim C4: on a transport or parse failure, `fetchProducts` leaves
`allProducts` and the three category buckets untouched and appends one
entry to the error log. -/
theorem fetchProducts_error_spec (s : DashState) :
    (fetchProducts FetchResult.error s).allProducts = s.allProducts ∧
    (fetchProducts FetchResult.error s).displayedMaterial
      = s.displayedMaterial ∧
    (fetchProducts FetchResult.error s).displayedMachine
      = s.displayedMachine ∧
    (fetchProducts FetchResult.error s).displayedWorker
      = s.displayedWorker ∧
    (fetchProducts FetchResult.error s).log
      = s.log ++ ["Error fetching products:"] :=
  ⟨rfl, rfl, rfl, rfl, rfl⟩

/-- Claim C5: when the persisted "cart" value is unparsable, `loadCart`
logs and resets the cart to empty and the counter to zero; when it parses
to a product array, `loadCart` installs that array and sets the counter to
its length. -/
theorem loadCart_spec (s : DashState) :
    (s.storage "cart" = some Item.malformed →
      loadCart s = some { s with log := s.log ++ ["Error loading cart:"],
                                 cart := [], cartCount := 0 }) ∧
    (∀ l, s.storage "cart" = some (Item.cartJson l) →
      loadCart s = some { s with cart := l, cartCount := l.length }) := by
  constructor
  · intro h
    simp [loadCart, h]
  · intro l h
    simp [loadCart, h]

/-- Witness for C5 at a storage holding an unparsable "cart" value. -/
theorem loadCart_spec_witness :
    dashWithMalformedCart.storage "cart" = some Item.malformed ∧
    loadCart dashWithMalformedCart =
      some { dashWithMalformedCart with
             log := dashWithMalformedCart.log ++ ["Error loading cart:"],
             cart := [], cartCount := 0 } :=
  ⟨by decide, (loadCart_spec dashWithMalformedCart).1 (by decide)⟩

/-- Counterexample to C6 as stated: the identifier produced by `login` is
`Date.now().toString()`, so two logins at the same clock reading generate
equal identifiers — the second identifier is not distinct from the
previously generated one. -/
theorem login_identifier_collision :
    (login 1700000000000 "a@b.com" "alice" authInit).user.map User.id
      = some "1700000000000" ∧
    ((login 1700000000000 "c@d.com" "bob"
        (login 1700000000000 "a@b.com" "alice" authInit)).user.map User.id)
      = some "1700000000000" := by
  constructor <;> rfl

/-- Claim C6 (amended): `login now email username` fabricates a User whose
identifier is the decimal rendering of the clock value `now` (equal clock
readings give equal identifiers), with the given email and username and
the fixed role consumer; it replaces any current session with this User
and persists it under the "user" storage key; no input validation is
performed — any input succeeds. -/
theorem login_spec (now : Nat) (email username : String) (s : AuthState) :
    (login now email username s).user =
      some { id := toString now, email := email, username := username,
             role := UserRole.consumer } ∧
    (login now email username s).storage "user" =
      some (Item.userJson
        { id := toString now, email := email, username := username,
          role := UserRole.consumer }) := by
  refine ⟨rfl, ?_⟩
  simp [login, setItem]

/-- Claim C7: after any `login`, `isLoggedIn` returns true. -/
theorem login_then_isLoggedIn (now : Nat) (email username : String)
    (s : AuthState) :
    isLoggedIn (login now email username s) = true := by
  simp [isLoggedIn, login, setItem]

/-- Claim C8: after `logout`, `isLoggedIn` returns false. -/
theorem logout_then_isLoggedIn (s : AuthState) :
    isLoggedIn (logout s) = false := by
  simp [isLoggedIn, logout, removeItem]

/-- Claim C9: `logout` leaves the value stored under the "cart" key
unchanged, for every storage state. -/
theorem logout_preserves_cart_storage (s : AuthState) :
    (logout s).storage "cart" = s.storage "cart" := by
  simp only [logout, removeItem]
  rw [if_neg (by decide)]

/-- Claim C10: the display counter equals the cart's length — initially
(both zero), after any successful `loadCart`, and after `addToCart`. -/
theorem cartCount_invariant :
    (∀ σ : Storage,
        (initialDashState σ).cartCount = (initialDashState σ).cart.length) ∧
    (∀ s s' : DashState, s.cartCount = s.cart.length →
        loadCart s = some s' → s'.cartCount = s'.cart.length) ∧
    (∀ (s : DashState) (p : Product), s.cartCount = s.cart.length →
        (addToCart p s).cartCount = (addToCart p s).cart.length) := by
  refine ⟨fun σ => rfl, ?_, ?_⟩
  · intro s s' hinv h
    rw [loadCart] at h
    cases hc : s.storage "cart" with
    | none =>
        rw [hc] at h
        cases h
        exact hinv
    | some item =>
        rw [hc] at h
        cases item with
        | malformed => cases h; rfl
        | cartJson l => cases h; rfl
        | userJson u => cases h
  · intro s p hinv
    simp [addToCart, List.length_append, hinv]

/-- Witness for C10: `addToCart` preserves the invariant at a concrete
state whose counter matches its cart. -/
theorem cartCount_invariant_witness :
    (addToCart drill sampleDashCart).cartCount
      = (addToCart drill sampleDashCart).cart.length :=
  cartCount_invariant.2.2 sampleDashCart drill rfl

end CSkit
